import Mathlib

/-!
Shallow embedding of the `rich_reporter` package (src/rich_reporter/__init__.py).

The package wraps Python's `logging` module: a `Reporter` names a logger in the
process-global, name-keyed logger registry (`logging.getLogger(name)`), sets its
level, clears its handlers, attaches a `RichHandler` bound to a console, an
optional `FileHandler`, and registers the bound method `_count_log_event` as a
logger filter.  The embedding makes that global registry explicit: a `PySys`
value holds every reporter's per-instance statistics dict, the logger registry,
the consoles, and the files.  Leveled logging calls go through the same gate as
CPython's `logging.Logger`: the level check (`isEnabledFor`), then every filter
attached to the logger (in attachment order, each mutating its own reporter's
stats), then each handler whose level admits the record.

Statistics dicts are association lists `List (String × Nat)` in insertion
order, mirroring Python dict semantics for the operations used by the source
(`in`, `[k] += 1`, `.copy()`, `.items()`).
-/

namespace RichReporter

/-- The five standard logging levels used by the Reporter facade. -/
inductive Level where
  | debug
  | info
  | warning
  | error
  | critical
deriving DecidableEq, Repr

/-- Numeric rank of each level, as in Python's `logging` module
(DEBUG=10, INFO=20, WARNING=30, ERROR=40, CRITICAL=50). -/
def Level.rank : Level → Nat
  | .debug => 10
  | .info => 20
  | .warning => 30
  | .error => 40
  | .critical => 50

/-- The value of `record.levelname` for each standard level: the upper-case
level name. -/
def Level.levelname : Level → String
  | .debug => "DEBUG"
  | .info => "INFO"
  | .warning => "WARNING"
  | .error => "ERROR"
  | .critical => "CRITICAL"

/-- The key under which a level is counted in `self._stats`
(`record.levelname.lower()`). -/
def Level.statsKey : Level → String
  | .debug => "debug"
  | .info => "info"
  | .warning => "warning"
  | .error => "error"
  | .critical => "critical"

/-- Embedding of Python `str.lower()` (the source applies it to ASCII level
names). -/
def strLower (s : String) : String := ⟨s.data.map Char.toLower⟩

/-- Embedding of Python `str.upper()` (the source applies it to ASCII level
names). -/
def strUpper (s : String) : String := ⟨s.data.map Char.toUpper⟩

/-- Python `k in d` on a dict represented as an association list. -/
def dictMem (d : List (String × Nat)) (k : String) : Bool :=
  d.any (fun p => p.1 == k)

/-- Python `d[k]` on a dict represented as an association list (0 if absent;
the source only reads keys that are present). -/
def dictGet (d : List (String × Nat)) (k : String) : Nat :=
  match d.find? (fun p => p.1 == k) with
  | some p => p.2
  | none => 0

/-- Python `d[k] += 1` on a dict whose key `k` is present. -/
def dictIncr (d : List (String × Nat)) (k : String) : List (String × Nat) :=
  d.map (fun p => if p.1 == k then (p.1, p.2 + 1) else p)

/-- Python `d[k] = v`: replace the binding if present, else append. -/
def dictSet (d : List (String × Nat)) (k : String) (v : Nat) : List (String × Nat) :=
  if dictMem d k then d.map (fun p => if p.1 == k then (p.1, v) else p)
  else d ++ [(k, v)]

/-- Sum of the values of a stats dict (`sum(d.values())`). -/
def dictValuesSum (d : List (String × Nat)) : Nat :=
  (d.map Prod.snd).sum

/-- The initial `self._stats` dict built in `Reporter.__init__`. -/
def initStats : List (String × Nat) :=
  [("debug", 0), ("info", 0), ("warning", 0), ("error", 0), ("critical", 0)]

/-- The body of `Reporter._count_log_event`: lower-case the record's level
name, increment the matching counter when the key exists, and return `True`
(the record is never filtered out). -/
def count_log_event (stats : List (String × Nat)) (levelname : String) :
    List (String × Nat) × Bool :=
  let level_name := strLower levelname
  if dictMem stats level_name then (dictIncr stats level_name, true)
  else (stats, true)

/-- A handler attached to a logger: the `RichHandler` (bound to a console,
with a level and the two pass-through display flags) or the `FileHandler`
(bound to a path, with a level). -/
inductive Handler where
  | rich (console : Nat) (level : Nat) (showTime : Bool) (showPath : Bool)
  | file (path : String) (level : Nat)
deriving DecidableEq, Repr

/-- The state of one entry of the global logger registry: its level, its
handler list, and its filter list.  A filter is recorded as the index of the
Reporter whose bound `_count_log_event` it is. -/
structure LoggerState where
  level : Nat
  handlers : List Handler
  filters : List Nat
deriving DecidableEq, Repr

/-- A fresh logger, as `logging.getLogger` creates it: level NOTSET, no
handlers, no filters. -/
def freshLogger : LoggerState := ⟨0, [], []⟩

/-- An observable event on a Rich console: a log record rendered by the
RichHandler (with `%(message)s` formatting), a titled summary panel printed by
`report`, each row carrying the upper-cased level name and the styled count
markup. -/
inductive ConsoleEvent where
  | log (levelname : String) (message : String)
  | panel (title : String) (rows : List (String × String))
deriving DecidableEq, Repr

/-- The per-instance state of one Reporter: its name, the index of its
console, and its `_stats` dict. -/
structure RepState where
  name : String
  consoleIdx : Nat
  stats : List (String × Nat)
deriving DecidableEq, Repr

/-- The whole mutable world the package touches: the Reporter instances (in
construction order), the name-keyed global logger registry, the consoles (each
a list of observed events), and the files (path-keyed lists of lines). -/
structure PySys where
  reporters : List RepState
  loggers : List (String × LoggerState)
  consoles : List (List ConsoleEvent)
  files : List (String × List String)
deriving DecidableEq, Repr

/-- The empty world: no reporters, an empty logger registry, no consoles,
no files. -/
def emptySys : PySys := ⟨[], [], [], []⟩

/-- Look up an association list, with a default for absent keys. -/
def lookupD {α : Type} (ls : List (String × α)) (k : String) (d : α) : α :=
  match ls.find? (fun p => p.1 == k) with
  | some p => p.2
  | none => d

/-- Replace the binding of `k` if present, else append it (Python dict
assignment on a registry whose keys are unique). -/
def assocSet {α : Type} (ls : List (String × α)) (k : String) (v : α) :
    List (String × α) :=
  match ls with
  | [] => [(k, v)]
  | p :: rest => if p.1 == k then (k, v) :: rest else p :: assocSet rest k v

/-- Membership of a key in an association list. -/
def assocMem {α : Type} (ls : List (String × α)) (k : String) : Bool :=
  ls.any (fun p => p.1 == k)

/-- The error message of the `ValueError` raised by `Reporter.__init__` when
`enable_file_handler=True` but no `file_path` is given. -/
def missingPathMsg : String :=
  "file_path must be provided when enable_file_handler=True"

/-- Embedding of `Reporter.__init__` (and of the `get_reporter` wrapper, which
forwards all arguments unchanged).  Effects, in source order: pick the given
console or create a new one; initialize the stats dict; `logging.getLogger
(name)` (fetching the existing registry entry or a fresh logger); `setLevel`;
`handlers.clear()`; add the `RichHandler`; if `enable_file_handler` then
require `file_path` (raising `ValueError` — modelled as `Except.error`
carrying the message and the world as already mutated before the raise) and
add the `FileHandler`, opening the file in append mode (created if absent);
finally `addFilter(self._count_log_event)`, which appends this reporter's
filter to the logger's filter list (note: filters of earlier same-named
Reporters are NOT cleared).  Returns the new world and the new reporter's
index. -/
def mkReporter (sys : PySys) (name : String) (level : Nat) (console : Option Nat)
    (showTime : Bool) (showPath : Bool) (enableFileHandler : Bool)
    (filePath : Option String) : Except (String × PySys) (PySys × Nat) :=
  let i := sys.reporters.length
  let consoles := match console with
    | some _ => sys.consoles
    | none => sys.consoles ++ [[]]
  let cIdx := match console with
    | some c => c
    | none => sys.consoles.length
  let lg0 := lookupD sys.loggers name freshLogger
  let lg1 : LoggerState :=
    { lg0 with level := level, handlers := [Handler.rich cIdx level showTime showPath] }
  let rep : RepState := { name := name, consoleIdx := cIdx, stats := initStats }
  if enableFileHandler then
    match filePath with
    | none =>
        Except.error (missingPathMsg,
          { sys with consoles := consoles, loggers := assocSet sys.loggers name lg1 })
    | some p =>
        let lg2 := { lg1 with
          handlers := lg1.handlers ++ [Handler.file p level],
          filters := lg1.filters ++ [i] }
        let files := if assocMem sys.files p then sys.files else sys.files ++ [(p, [])]
        Except.ok ({ reporters := sys.reporters ++ [rep],
                     loggers := assocSet sys.loggers name lg2,
                     consoles := consoles,
                     files := files }, i)
  else
    let lg2 := { lg1 with filters := lg1.filters ++ [i] }
    Except.ok ({ reporters := sys.reporters ++ [rep],
                 loggers := assocSet sys.loggers name lg2,
                 consoles := consoles,
                 files := sys.files }, i)

/-- Run the logger's filter list on a record, in attachment order: each entry
is some reporter's bound `_count_log_event`, which mutates that reporter's own
stats dict and returns `True` (so the chain never rejects the record). -/
def runFilters (reps : List RepState) (fs : List Nat) (levelname : String) :
    List RepState :=
  match fs with
  | [] => reps
  | j :: rest =>
      let reps' := match reps[j]? with
        | some r => reps.set j { r with stats := (count_log_event r.stats levelname).1 }
        | none => reps
      runFilters reps' rest levelname

/-- Deliver an admitted record to one handler: the handler's own level check
(`record.levelno >= handler.level`), then its output.  The RichHandler renders
the `%(message)s`-formatted record on its console; the FileHandler appends one
line formatted as `%(asctime)s - %(name)s - %(levelname)s - %(message)s`. -/
def handleRecord (sys : PySys) (h : Handler) (ts : String) (rname : String)
    (levelname : String) (rank : Nat) (msg : String) : PySys :=
  match h with
  | .rich c hl _ _ =>
      if hl ≤ rank then
        { sys with consoles :=
            sys.consoles.set c ((sys.consoles[c]?.getD []) ++ [ConsoleEvent.log levelname msg]) }
      else sys
  | .file p hl =>
      if hl ≤ rank then
        { sys with files :=
            (assocSet sys.files p
              (lookupD sys.files p [] ++ [ts ++ " - " ++ rname ++ " - " ++ levelname ++ " - " ++ msg])) }
      else sys

/-- Embedding of a submission through `logging.Logger`: the level gate
(`isEnabledFor`, comparing the record's rank with the logger's configured
level), then the logger's filters (each counting into its own reporter's
stats), then delivery to every attached handler in order.  `ts` is the opaque
local timestamp assigned to the record at emission time. -/
def logRecord (sys : PySys) (i : Nat) (levelname : String) (rank : Nat)
    (msg : String) (ts : String) : PySys :=
  match sys.reporters[i]? with
  | none => sys
  | some rep =>
      let lg := lookupD sys.loggers rep.name freshLogger
      if lg.level ≤ rank then
        let sys1 := { sys with reporters := runFilters sys.reporters lg.filters levelname }
        lg.handlers.foldl (fun s h => handleRecord s h ts rep.name levelname rank msg) sys1
      else sys

/-- A leveled convenience call (`Reporter.debug` / `info` / `warning` /
`error` / `critical`): submit a record at that level's name and rank. -/
def logLevel (sys : PySys) (i : Nat) (L : Level) (msg : String) (ts : String) : PySys :=
  logRecord sys i L.levelname L.rank msg ts

/-- Embedding of `Reporter.get_stats`: the value of the returned copy of the
stats dict (aliasing is covered by the dict-heap model below). -/
def get_stats (sys : PySys) (i : Nat) : List (String × Nat) :=
  match sys.reporters[i]? with
  | some r => r.stats
  | none => []

/-- The count style chosen per level row in `Reporter.report`. -/
def countStyle (level : String) : String :=
  if level == "error" || level == "critical" then "bold red"
  else if level == "warning" then "bold yellow"
  else "green"

/-- The table rows built by `Reporter.report`: one row per entry of the stats
dict in insertion order, showing the upper-cased level name and the styled
count markup. -/
def reportRows (stats : List (String × Nat)) : List (String × String) :=
  stats.map (fun p =>
    (strUpper p.1,
     "[" ++ countStyle p.1 ++ "]" ++ toString p.2 ++ "[/" ++ countStyle p.1 ++ "]"))

/-- Embedding of `Reporter.report`: build the table from the stats dict, print
the titled panel on the reporter's console, and return `get_stats()`. -/
def report (sys : PySys) (i : Nat) (title : String) : PySys × List (String × Nat) :=
  match sys.reporters[i]? with
  | none => (sys, [])
  | some rep =>
      ({ sys with consoles :=
           (sys.consoles.set rep.consoleIdx
             ((sys.consoles[rep.consoleIdx]?.getD []) ++
              [ConsoleEvent.panel title (reportRows rep.stats)])) },
       rep.stats)

/-- Embedding of `Reporter.__exit__`: call `self.report()` with the default
title.  It returns `None`, so it never suppresses an in-flight exception. -/
def reporterExit (sys : PySys) (i : Nat) : PySys :=
  (report sys i "Report Summary").1

/-- Scoped (`with`-statement) use of a Reporter: run the body (which returns
the world it produced plus the exception it raised, if any), then run
`__exit__` on that world.  Because `__exit__` returns `None`, the body's
exception — when there is one — propagates unchanged. -/
def scopedRun (sys : PySys) (i : Nat)
    (body : PySys → Option String × PySys) : Option String × PySys :=
  let r := body sys
  (r.1, reporterExit r.2 i)

/-- Iterated `report` calls with no intervening submissions. -/
def reportIter (sys : PySys) (i : Nat) (title : String) : Nat → PySys
  | 0 => sys
  | n + 1 => (report (reportIter sys i title n) i title).1

/-- Well-formedness of the world: every filter registered on any logger refers
to a Reporter that exists.  Construction through `mkReporter` preserves this;
it guarantees that a freshly constructed reporter's index is not already on
some logger's filter list. -/
def WFsys (sys : PySys) : Prop :=
  ∀ p ∈ sys.loggers, ∀ j ∈ p.2.filters, j < sys.reporters.length

/-- The result of `n` passes of some reporter's counting filter over one
record: `n` applications of `_count_log_event` to its stats dict. -/
def applyCount (n : Nat) (levelname : String) (r : RepState) : RepState :=
  match n with
  | 0 => r
  | n + 1 => applyCount n levelname { r with stats := (count_log_event r.stats levelname).1 }

/-- Canonical shape of a stats dict: the five fixed keys in insertion order
with arbitrary counts. -/
def mkStats (a b c d e : Nat) : List (String × Nat) :=
  [("debug", a), ("info", b), ("warning", c), ("error", d), ("critical", e)]

/-- A finite sequence of leveled logging calls on one reporter, each a level,
a message, and the record's emission timestamp. -/
def runCalls (sys : PySys) (i : Nat) (calls : List (Level × String × String)) : PySys :=
  calls.foldl (fun s c => logLevel s i c.1 c.2.1 c.2.2) sys

/-- Pure mirror of the statistics update along a sequence of leveled calls:
an admitted call feeds `_count_log_event`, a rejected one changes nothing. -/
def statsAfter (stats : List (String × Nat)) (m : Nat)
    (calls : List (Level × String × String)) : List (String × Nat) :=
  match calls with
  | [] => stats
  | c :: rest =>
      statsAfter
        (if m ≤ c.1.rank then (count_log_event stats c.1.levelname).1 else stats) m rest

/-- Number of calls in the sequence made at level `L` whose rank passes the
admission threshold `m`. -/
def admCount (m : Nat) (calls : List (Level × String × String)) (L : Level) : Nat :=
  calls.countP (fun c => decide (c.1 = L ∧ m ≤ c.1.rank))

/-- Number of admitted calls in the sequence. -/
def admTotal (m : Nat) (calls : List (Level × String × String)) : Nat :=
  calls.countP (fun c => decide (m ≤ c.1.rank))

/-- Invariant tying a reporter to its logger for the statistics theorems: the
reporter exists and carries `name`, the logger registered under `name` has
level `m`, and the reporter's own counting filter is attached to that logger
exactly once. -/
def Tracks (sys : PySys) (i : Nat) (name : String) (m : Nat) : Prop :=
  (∃ rep, sys.reporters[i]? = some rep ∧ rep.name = name) ∧
  (lookupD sys.loggers name freshLogger).level = m ∧
  (lookupD sys.loggers name freshLogger).filters.count i = 1

/-- The world produced by a successful construction call, for instantiating
theorems at concrete inputs (the call sites below never hit the error
case). -/
def builtSys (r : Except (String × PySys) (PySys × Nat)) : PySys :=
  match r with
  | .ok v => v.1
  | .error e => e.2

/-- The DEBUG-minimum scenario sequence from the specification: two DEBUG,
three INFO, one WARNING, two ERROR, two CRITICAL submissions. -/
def scenarioCalls : List (Level × String × String) :=
  [(.debug, "d1", "t1"), (.debug, "d2", "t2"), (.info, "i1", "t3"),
   (.info, "i2", "t4"), (.info, "i3", "t5"), (.warning, "w1", "t6"),
   (.error, "e1", "t7"), (.error, "e2", "t8"), (.critical, "c1", "t9"),
   (.critical, "c2", "t10")]

/-- A heap of Python dict objects, for the aliasing behaviour of
`get_stats`: each cell is one dict, and a reporter or a caller holds a cell
index (a reference), not a value. -/
structure DictHeap where
  cells : List (List (String × Nat))
deriving DecidableEq, Repr

/-- Dereference a dict reference. -/
def heapGet (h : DictHeap) (r : Nat) : List (String × Nat) :=
  (h.cells[r]?).getD []

/-- Overwrite the dict a reference points to. -/
def heapSet (h : DictHeap) (r : Nat) (d : List (String × Nat)) : DictHeap :=
  ⟨h.cells.set r d⟩

/-- Reference-level embedding of `Reporter.get_stats`: `return
self._stats.copy()` allocates a fresh dict holding the same entries and
returns a reference to the fresh cell, never the live `_stats` reference. -/
def get_stats_ref (h : DictHeap) (statsRef : Nat) : DictHeap × Nat :=
  (⟨h.cells ++ [heapGet h statsRef]⟩, h.cells.length)

/-- A caller mutating the mapping it was handed: a sequence of Python
`d[k] = v` assignments through one dict reference. -/
def mutateRef (h : DictHeap) (r : Nat) (ms : List (String × Nat)) : DictHeap :=
  ms.foldl (fun h m => heapSet h r (dictSet (heapGet h r) m.1 m.2)) h

lemma applyCount_name (n : Nat) (ln : String) (r : RepState) :
    (applyCount n ln r).name = r.name := by
  induction n generalizing r with
  | zero => rfl
  | succ n ih => exact ih _

lemma applyCount_consoleIdx (n : Nat) (ln : String) (r : RepState) :
    (applyCount n ln r).consoleIdx = r.consoleIdx := by
  induction n generalizing r with
  | zero => rfl
  | succ n ih => exact ih _

lemma list_set_self {α : Type} (l : List α) (j : Nat) (a : α) (h : l[j]? = some a) :
    l.set j a = l := by
  induction l generalizing j with
  | nil => simp at h
  | cons x xs ih =>
    cases j with
    | zero =>
      simp only [List.getElem?_cons_zero, Option.some.injEq] at h
      simp [List.set, h]
    | succ n =>
      simp only [List.getElem?_cons_succ] at h
      simp [List.set, ih n h]

/-- Projection of `runFilters` at one reporter index: the reporter is updated
once per occurrence of its index on the filter list. -/
lemma runFilters_getElem (reps : List RepState) (fs : List Nat) (ln : String)
    (i : Nat) :
    (runFilters reps fs ln)[i]? = (reps[i]?).map (applyCount (fs.count i) ln) := by
  induction fs generalizing reps with
  | nil =>
    cases h : reps[i]? <;> simp [runFilters, applyCount, h]
  | cons j rest ih =>
    simp only [runFilters]
    cases hj : reps[j]? with
    | none =>
      by_cases hji : j = i
      · subst hji; rw [ih, hj]; rfl
      · rw [ih, List.count_cons_of_ne (fun hc => hji hc.symm)]
    | some r =>
      by_cases hji : j = i
      · subst hji
        have hlen : j < reps.length := by
          by_contra hc
          rw [List.getElem?_eq_none (by omega)] at hj
          exact Option.noConfusion hj
        rw [ih, List.getElem?_set_self hlen, hj, List.count_cons_self]
        rfl
      · rw [ih, List.getElem?_set_ne hji,
            List.count_cons_of_ne (fun hc => hji hc.symm)]

/-- A filter pass that changes no stats dict leaves the reporters list
unchanged. -/
lemma runFilters_id (reps : List RepState) (fs : List Nat) (ln : String)
    (hid : ∀ (j : Nat) (r : RepState),
      reps[j]? = some r → (count_log_event r.stats ln).1 = r.stats) :
    runFilters reps fs ln = reps := by
  induction fs with
  | nil => rfl
  | cons j rest ih =>
    simp only [runFilters]
    cases hj : reps[j]? with
    | none => exact ih
    | some r =>
      dsimp only
      rw [hid j r hj]
      rw [list_set_self reps j r hj]
      exact ih

lemma handleRecord_reporters (sys : PySys) (h : Handler) (ts rname ln : String)
    (rank : Nat) (msg : String) :
    (handleRecord sys h ts rname ln rank msg).reporters = sys.reporters := by
  cases h <;> simp only [handleRecord] <;> split <;> rfl

lemma handleRecord_loggers (sys : PySys) (h : Handler) (ts rname ln : String)
    (rank : Nat) (msg : String) :
    (handleRecord sys h ts rname ln rank msg).loggers = sys.loggers := by
  cases h <;> simp only [handleRecord] <;> split <;> rfl

lemma foldl_handleRecord_reporters (hs : List Handler) (sys : PySys)
    (ts rname ln : String) (rank : Nat) (msg : String) :
    (hs.foldl (fun s h => handleRecord s h ts rname ln rank msg) sys).reporters =
      sys.reporters := by
  induction hs generalizing sys with
  | nil => rfl
  | cons h rest ih => rw [List.foldl_cons, ih, handleRecord_reporters]

lemma foldl_handleRecord_loggers (hs : List Handler) (sys : PySys)
    (ts rname ln : String) (rank : Nat) (msg : String) :
    (hs.foldl (fun s h => handleRecord s h ts rname ln rank msg) sys).loggers =
      sys.loggers := by
  induction hs generalizing sys with
  | nil => rfl
  | cons h rest ih => rw [List.foldl_cons, ih, handleRecord_loggers]

/-- A submission never touches the logger registry. -/
lemma logRecord_loggers (sys : PySys) (i : Nat) (ln : String) (rank : Nat)
    (msg ts : String) :
    (logRecord sys i ln rank msg ts).loggers = sys.loggers := by
  unfold logRecord
  cases hrep : sys.reporters[i]? with
  | none => rfl
  | some rep =>
    simp only
    split
    · rw [foldl_handleRecord_loggers]
    · rfl

/-- A submission below the logger's configured level is a complete no-op on
the world. -/
lemma logRecord_below (sys : PySys) (i : Nat) (rep : RepState) (ln : String)
    (rank : Nat) (msg ts : String)
    (hrep : sys.reporters[i]? = some rep)
    (hlt : rank < (lookupD sys.loggers rep.name freshLogger).level) :
    logRecord sys i ln rank msg ts = sys := by
  unfold logRecord
  rw [hrep]
  simp only
  rw [if_neg (by omega)]

/-- Effect of an admitted submission on one reporter's slot: its counting
filter runs once per occurrence of its index on the logger's filter list. -/
lemma logRecord_getElem (sys : PySys) (i : Nat) (rep : RepState) (ln : String)
    (rank : Nat) (msg ts : String) (j : Nat)
    (hrep : sys.reporters[i]? = some rep)
    (hge : (lookupD sys.loggers rep.name freshLogger).level ≤ rank) :
    (logRecord sys i ln rank msg ts).reporters[j]? =
      (sys.reporters[j]?).map
        (applyCount ((lookupD sys.loggers rep.name freshLogger).filters.count j) ln) := by
  unfold logRecord
  rw [hrep]
  simp only
  rw [if_pos hge, foldl_handleRecord_reporters]
  exact runFilters_getElem _ _ _ _

lemma lookupD_assocSet_self {α : Type} (ls : List (String × α)) (k : String)
    (v : α) (d : α) :
    lookupD (assocSet ls k v) k d = v := by
  induction ls with
  | nil => simp [assocSet, lookupD]
  | cons p rest ih =>
    by_cases h : p.1 = k
    · simp [assocSet, lookupD, h]
    · simp only [assocSet]
      rw [if_neg (by simp [h])]
      unfold lookupD
      rw [List.find?_cons_of_neg _ (by simp [h])]
      exact ih

lemma lookupD_assocSet_ne {α : Type} (ls : List (String × α)) (k k' : String)
    (v : α) (d : α) (hne : k' ≠ k) :
    lookupD (assocSet ls k v) k' d = lookupD ls k' d := by
  induction ls with
  | nil =>
    unfold assocSet lookupD
    rw [List.find?_cons_of_neg _ (by simp [Ne.symm hne])]
  | cons p rest ih =>
    by_cases h : p.1 = k
    · simp only [assocSet]
      rw [if_pos (by simp [h])]
      unfold lookupD
      rw [List.find?_cons_of_neg _ (by simp [Ne.symm hne]),
          List.find?_cons_of_neg _ (by simp [h, Ne.symm hne])]
    · simp only [assocSet]
      rw [if_neg (by simp [h])]
      unfold lookupD
      by_cases h' : p.1 = k'
      · rw [List.find?_cons_of_pos _ (by simp [h']),
            List.find?_cons_of_pos _ (by simp [h'])]
      · rw [List.find?_cons_of_neg _ (by simp [h']),
            List.find?_cons_of_neg _ (by simp [h'])]
        exact ih

/-- The filters of the logger an existing world associates with a name are
indices of existing reporters. -/
lemma WFsys_lookup (sys : PySys) (hwf : WFsys sys) (n : String) (j : Nat)
    (hj : j ∈ (lookupD sys.loggers n freshLogger).filters) :
    j < sys.reporters.length := by
  unfold lookupD at hj
  cases hf : sys.loggers.find? (fun p => p.1 == n) with
  | none => rw [hf] at hj; simp [freshLogger] at hj
  | some p =>
    rw [hf] at hj
    exact hwf p (List.mem_of_find?_eq_some hf) j hj

lemma initStats_eq : initStats = mkStats 0 0 0 0 0 := rfl

lemma cle_debug (a b c d e : Nat) :
    (count_log_event (mkStats a b c d e) Level.debug.levelname).1 =
      mkStats (a + 1) b c d e := rfl

lemma cle_info (a b c d e : Nat) :
    (count_log_event (mkStats a b c d e) Level.info.levelname).1 =
      mkStats a (b + 1) c d e := rfl

lemma cle_warning (a b c d e : Nat) :
    (count_log_event (mkStats a b c d e) Level.warning.levelname).1 =
      mkStats a b (c + 1) d e := rfl

lemma cle_error (a b c d e : Nat) :
    (count_log_event (mkStats a b c d e) Level.error.levelname).1 =
      mkStats a b c (d + 1) e := rfl

lemma cle_critical (a b c d e : Nat) :
    (count_log_event (mkStats a b c d e) Level.critical.levelname).1 =
      mkStats a b c d (e + 1) := rfl

/-- One leveled call preserves the tracking invariant and updates the tracked
reporter's stats dict exactly as the pure mirror does. -/
lemma logLevel_step (sys : PySys) (i : Nat) (name : String) (m : Nat)
    (ht : Tracks sys i name m) (L : Level) (msg ts : String) :
    Tracks (logLevel sys i L msg ts) i name m ∧
    get_stats (logLevel sys i L msg ts) i =
      (if m ≤ L.rank then (count_log_event (get_stats sys i) L.levelname).1
       else get_stats sys i) := by
  obtain ⟨⟨rep, hrep, hname⟩, hlev, hcnt⟩ := ht
  have hll : logLevel sys i L msg ts = logRecord sys i L.levelname L.rank msg ts := rfl
  by_cases hadm : m ≤ L.rank
  · have hge : (lookupD sys.loggers rep.name freshLogger).level ≤ L.rank := by
      rw [hname, hlev]; exact hadm
    have hget := logRecord_getElem sys i rep L.levelname L.rank msg ts i hrep hge
    have hlog := logRecord_loggers sys i L.levelname L.rank msg ts
    rw [hname] at hget
    rw [hcnt] at hget
    have hrep' : (logLevel sys i L msg ts).reporters[i]? =
        some (applyCount 1 L.levelname rep) := by
      rw [hll, hget, hrep]; rfl
    refine ⟨⟨⟨applyCount 1 L.levelname rep, hrep', ?_⟩, ?_, ?_⟩, ?_⟩
    · rw [applyCount_name]; exact hname
    · rw [hll, hlog]; exact hlev
    · rw [hll, hlog]; exact hcnt
    · rw [if_pos hadm]
      unfold get_stats
      rw [hrep', hrep]
      rfl
  · have hlt : L.rank < (lookupD sys.loggers rep.name freshLogger).level := by
      rw [hname, hlev]; omega
    have hid : logLevel sys i L msg ts = sys :=
      logRecord_below sys i rep L.levelname L.rank msg ts hrep hlt
    rw [hid, if_neg hadm]
    exact ⟨⟨⟨rep, hrep, hname⟩, hlev, hcnt⟩, rfl⟩

/-- The statistics a tracked reporter accumulates over any sequence of leveled
calls are exactly those of the pure mirror. -/
lemma runCalls_stats (calls : List (Level × String × String)) :
    ∀ (sys : PySys) (i : Nat) (name : String) (m : Nat), Tracks sys i name m →
      Tracks (runCalls sys i calls) i name m ∧
      get_stats (runCalls sys i calls) i = statsAfter (get_stats sys i) m calls := by
  induction calls with
  | nil => intro sys i name m ht; exact ⟨ht, rfl⟩
  | cons c rest ih =>
    intro sys i name m ht
    have hstep := logLevel_step sys i name m ht c.1 c.2.1 c.2.2
    have hrec := ih (logLevel sys i c.1 c.2.1 c.2.2) i name m hstep.1
    refine ⟨hrec.1, ?_⟩
    have hfold : runCalls sys i (c :: rest) =
        runCalls (logLevel sys i c.1 c.2.1 c.2.2) i rest := rfl
    rw [hfold, hrec.2, hstep.2]
    rfl

/-- Pure characterization: running the mirror from the canonical stats shape
adds, per level, the number of admitted calls at that level. -/
lemma statsAfter_mkStats (calls : List (Level × String × String)) :
    ∀ (m a b c d e : Nat),
      statsAfter (mkStats a b c d e) m calls =
        mkStats (a + admCount m calls .debug) (b + admCount m calls .info)
          (c + admCount m calls .warning) (d + admCount m calls .error)
          (e + admCount m calls .critical) := by
  induction calls with
  | nil => intro m a b c d e; simp [statsAfter, admCount]
  | cons hd rest ih =>
    intro m a b c d e
    obtain ⟨L, msg, ts⟩ := hd
    simp only [statsAfter]
    by_cases hadm : m ≤ L.rank
    · rw [if_pos hadm]
      cases L <;>
        simp only [cle_debug, cle_info, cle_warning, cle_error, cle_critical] <;>
        rw [ih] <;>
        simp only [admCount, List.countP_cons, mkStats, List.cons.injEq, Prod.mk.injEq] <;>
        simp only [Level.rank] at hadm <;>
        simp [Level.rank, hadm] <;>
        omega
    · rw [if_neg hadm, ih]
      cases L <;>
        simp only [admCount, List.countP_cons, mkStats, List.cons.injEq, Prod.mk.injEq] <;>
        simp only [Level.rank] at hadm <;>
        simp [Level.rank, hadm]

/-- Exact value of a construction without file handler (it always
succeeds). -/
lemma mkReporter_ok_nofile (sys : PySys) (name : String) (level : Nat)
    (console : Option Nat) (st sp : Bool) :
    mkReporter sys name level console st sp false none =
      Except.ok
        ({ reporters := sys.reporters ++
             [⟨name, (match console with | some c => c | none => sys.consoles.length),
               initStats⟩],
           loggers := assocSet sys.loggers name
             { level := level,
               handlers := [Handler.rich
                 (match console with | some c => c | none => sys.consoles.length)
                 level st sp],
               filters := (lookupD sys.loggers name freshLogger).filters ++
                 [sys.reporters.length] },
           consoles := (match console with
             | some _ => sys.consoles
             | none => sys.consoles ++ [[]]),
           files := sys.files }, sys.reporters.length) := rfl

/-- A reporter constructed without a file handler on a well-formed world is
tracked by its logger and starts with all counters at zero. -/
lemma mkReporter_tracks (sys : PySys) (hwf : WFsys sys) (name : String)
    (level : Nat) (console : Option Nat) (st sp : Bool) (s0 : PySys) (i : Nat)
    (hmk : mkReporter sys name level console st sp false none = Except.ok (s0, i)) :
    Tracks s0 i name level ∧ get_stats s0 i = initStats := by
  rw [mkReporter_ok_nofile] at hmk
  simp only [Except.ok.injEq, Prod.mk.injEq] at hmk
  obtain ⟨hs, hi⟩ := hmk
  subst hs
  subst hi
  have hlook :
      lookupD (assocSet sys.loggers name
        { level := level,
          handlers := [Handler.rich
            (match console with | some c => c | none => sys.consoles.length)
            level st sp],
          filters := (lookupD sys.loggers name freshLogger).filters ++
            [sys.reporters.length] }) name freshLogger =
        { level := level,
          handlers := [Handler.rich
            (match console with | some c => c | none => sys.consoles.length)
            level st sp],
          filters := (lookupD sys.loggers name freshLogger).filters ++
            [sys.reporters.length] } :=
    lookupD_assocSet_self _ _ _ _
  refine ⟨⟨⟨_, List.getElem?_concat_length _ _, rfl⟩, ?_, ?_⟩, ?_⟩
  · rw [hlook]
  · rw [hlook]
    simp only [List.count_append]
    have h0 : ((lookupD sys.loggers name freshLogger).filters).count
        sys.reporters.length = 0 := by
      rw [List.count_eq_zero]
      intro hmem
      exact absurd (WFsys_lookup sys hwf name _ hmem) (lt_irrefl _)
    rw [h0, Nat.zero_add, List.count_singleton]
    simp
  · unfold get_stats
    rw [List.getElem?_concat_length]

/-- The per-level admitted counts sum to the number of admitted calls. -/
lemma admCount_total (m : Nat) (calls : List (Level × String × String)) :
    admCount m calls .debug + admCount m calls .info + admCount m calls .warning +
      admCount m calls .error + admCount m calls .critical = admTotal m calls := by
  induction calls with
  | nil => rfl
  | cons hd rest ih =>
    obtain ⟨L, msg, ts⟩ := hd
    simp only [admCount, admTotal] at ih
    by_cases hadm : m ≤ L.rank <;> cases L <;>
      simp only [admCount, admTotal, List.countP_cons] <;>
      simp only [Level.rank] at hadm <;>
      simp [Level.rank, hadm] at ih ⊢ <;>
      omega

lemma report_fst_reporters (sys : PySys) (i : Nat) (t : String) :
    (report sys i t).1.reporters = sys.reporters := by
  unfold report
  cases h : sys.reporters[i]? with
  | none => rfl
  | some rep => rfl

lemma report_snd (sys : PySys) (i : Nat) (t : String) :
    (report sys i t).2 = get_stats sys i := by
  unfold report get_stats
  cases h : sys.reporters[i]? with
  | none => rfl
  | some rep => rfl

lemma get_stats_eq_of_reporters (s s' : PySys) (i : Nat)
    (h : s.reporters = s'.reporters) : get_stats s i = get_stats s' i := by
  unfold get_stats
  rw [h]

lemma reportIter_reporters (sys : PySys) (i : Nat) (t : String) (n : Nat) :
    (reportIter sys i t n).reporters = sys.reporters := by
  induction n with
  | zero => rfl
  | succ n ih => rw [reportIter, report_fst_reporters, ih]

/-- The value a fresh snapshot reference dereferences to is the snapshotted
dict. -/
lemma get_stats_ref_val (h : DictHeap) (r : Nat) :
    heapGet (get_stats_ref h r).1 (get_stats_ref h r).2 = heapGet h r := by
  unfold get_stats_ref heapGet
  simp only [List.getElem?_concat_length, Option.getD_some]

/-- Mutating through one reference never changes what a different reference
dereferences to. -/
lemma mutateRef_other (r r' : Nat) (hne : r' ≠ r) (ms : List (String × Nat)) :
    ∀ h : DictHeap, heapGet (mutateRef h r ms) r' = heapGet h r' := by
  induction ms with
  | nil => intro h; rfl
  | cons m rest ih =>
    intro h
    have hstep : mutateRef h r (m :: rest) =
        mutateRef (heapSet h r (dictSet (heapGet h r) m.1 m.2)) r rest := rfl
    rw [hstep, ih]
    unfold heapGet heapSet
    rw [List.getElem?_set_ne (Ne.symm hne)]

/-- C1: for a Reporter constructed with minimum level `minLevel` and any
finite sequence of leveled logging calls on it, `get_stats()` gives, for each
of the five levels, exactly the number of calls made at that level whose rank
is at least `minLevel.rank`, and the sum of its values equals the total number
of admitted calls. -/
theorem get_stats_counts_admitted (sys : PySys) (hwf : WFsys sys)
    (name : String) (minLevel : Level) (console : Option Nat) (st sp : Bool)
    (s0 : PySys) (i : Nat)
    (hmk : mkReporter sys name minLevel.rank console st sp false none =
      Except.ok (s0, i))
    (calls : List (Level × String × String)) :
    (∀ L : Level,
      dictGet (get_stats (runCalls s0 i calls) i) L.statsKey =
        admCount minLevel.rank calls L) ∧
    dictValuesSum (get_stats (runCalls s0 i calls) i) =
      admTotal minLevel.rank calls := by
  obtain ⟨ht, hinit⟩ :=
    mkReporter_tracks sys hwf name minLevel.rank console st sp s0 i hmk
  have hrun := (runCalls_stats calls s0 i name minLevel.rank ht).2
  rw [hinit, initStats_eq, statsAfter_mkStats] at hrun
  simp only [Nat.zero_add] at hrun
  constructor
  · intro L
    rw [hrun]
    cases L <;> rfl
  · rw [hrun]
    have hsum := admCount_total minLevel.rank calls
    simp only [dictValuesSum, mkStats, List.map_cons, List.map_nil,
      List.sum_cons, List.sum_nil]
    omega

/-- Witness for C1: at the specification's DEBUG-minimum scenario on the
empty world every hypothesis holds, and the resulting counts are
{DEBUG:2, INFO:3, WARNING:1, ERROR:2, CRITICAL:2}. -/
theorem get_stats_counts_admitted_witness :
    WFsys emptySys ∧
    mkReporter emptySys "app" Level.debug.rank none true false false none =
      Except.ok
        (builtSys (mkReporter emptySys "app" Level.debug.rank none true false false none),
         0) ∧
    ((∀ L : Level,
      dictGet
        (get_stats
          (runCalls
            (builtSys (mkReporter emptySys "app" Level.debug.rank none true false false none))
            0 scenarioCalls) 0) L.statsKey =
        admCount Level.debug.rank scenarioCalls L) ∧
     dictValuesSum
       (get_stats
         (runCalls
           (builtSys (mkReporter emptySys "app" Level.debug.rank none true false false none))
           0 scenarioCalls) 0) =
       admTotal Level.debug.rank scenarioCalls) ∧
    get_stats
      (runCalls
        (builtSys (mkReporter emptySys "app" Level.debug.rank none true false false none))
        0 scenarioCalls) 0 = mkStats 2 3 1 2 2 := by
  have hwf : WFsys emptySys := by
    intro p hp j hj
    simp [emptySys] at hp
  refine ⟨hwf, rfl, ?_, by decide⟩
  exact get_stats_counts_admitted emptySys hwf "app" Level.debug none true false
    (builtSys (mkReporter emptySys "app" Level.debug.rank none true false false none))
    0 rfl scenarioCalls

/-- C3: a leveled call whose rank is strictly below the logger's configured
minimum level is a complete no-op on observable state: the world is unchanged,
so `get_stats` is unchanged and no console or file sink receives output. -/
theorem below_min_level_noop (sys : PySys) (i : Nat) (rep : RepState)
    (L : Level) (msg ts : String)
    (hrep : sys.reporters[i]? = some rep)
    (hlt : L.rank < (lookupD sys.loggers rep.name freshLogger).level) :
    logLevel sys i L msg ts = sys ∧
    get_stats (logLevel sys i L msg ts) i = get_stats sys i ∧
    (logLevel sys i L msg ts).consoles = sys.consoles ∧
    (logLevel sys i L msg ts).files = sys.files := by
  have h : logLevel sys i L msg ts = sys :=
    logRecord_below sys i rep L.levelname L.rank msg ts hrep hlt
  exact ⟨h, by rw [h], by rw [h], by rw [h]⟩

/-- Witness for C3: a DEBUG call on a reporter constructed at INFO level
leaves the world untouched. -/
theorem below_min_level_noop_witness :
    ((builtSys (mkReporter emptySys "app" Level.info.rank none true false false none)).reporters[0]? =
      some ⟨"app", 0, initStats⟩) ∧
    Level.debug.rank <
      (lookupD (builtSys
        (mkReporter emptySys "app" Level.info.rank none true false false none)).loggers
        "app" freshLogger).level ∧
    (logLevel (builtSys (mkReporter emptySys "app" Level.info.rank none true false false none))
        0 Level.debug "quiet" "ts" =
      builtSys (mkReporter emptySys "app" Level.info.rank none true false false none) ∧
     get_stats
        (logLevel (builtSys (mkReporter emptySys "app" Level.info.rank none true false false none))
          0 Level.debug "quiet" "ts") 0 =
      get_stats (builtSys (mkReporter emptySys "app" Level.info.rank none true false false none)) 0 ∧
     (logLevel (builtSys (mkReporter emptySys "app" Level.info.rank none true false false none))
        0 Level.debug "quiet" "ts").consoles =
      (builtSys (mkReporter emptySys "app" Level.info.rank none true false false none)).consoles ∧
     (logLevel (builtSys (mkReporter emptySys "app" Level.info.rank none true false false none))
        0 Level.debug "quiet" "ts").files =
      (builtSys (mkReporter emptySys "app" Level.info.rank none true false false none)).files) :=
  ⟨rfl, by decide,
   below_min_level_noop
     (builtSys (mkReporter emptySys "app" Level.info.rank none true false false none))
     0 ⟨"app", 0, initStats⟩ Level.debug "quiet" "ts" rfl (by decide)⟩

/-- C4: scoped use of a Reporter invokes `report()` exactly once when the
scope exits, with the default title "Report Summary", whether the body
finished normally or raised: the scope's outcome is the body's outcome, and
the reporter's console receives exactly one additional summary panel, titled
"Report Summary", built from the counts at scope exit. -/
theorem scoped_exit_reports_once (sys : PySys) (i : Nat)
    (body : PySys → Option String × PySys) (rep : RepState)
    (hrep : (body sys).2.reporters[i]? = some rep)
    (hc : rep.consoleIdx < (body sys).2.consoles.length) :
    (scopedRun sys i body).1 = (body sys).1 ∧
    (scopedRun sys i body).2.consoles[rep.consoleIdx]? =
      some ((((body sys).2.consoles[rep.consoleIdx]?).getD []) ++
            [ConsoleEvent.panel "Report Summary" (reportRows rep.stats)]) := by
  constructor
  · rfl
  · show (reporterExit (body sys).2 i).consoles[rep.consoleIdx]? = _
    unfold reporterExit report
    rw [hrep]
    dsimp only
    rw [List.getElem?_set_self hc]

/-- Witness for C4: one normally-returning body and one failing body, each
submitting one admitted record; in both runs the summary panel with the
default title is appended exactly once. -/
theorem scoped_exit_reports_once_witness :
    (((fun s => ((none : Option String), logLevel s 0 Level.info "m" "t")) (builtSys (mkReporter emptySys "app" Level.info.rank none true false false none))).2.reporters[(0 : Nat)]? =
        some ⟨"app", 0, mkStats 0 1 0 0 0⟩ ∧
      (0 : Nat) <
        ((fun s => ((none : Option String), logLevel s 0 Level.info "m" "t")) (builtSys (mkReporter emptySys "app" Level.info.rank none true false false none))).2.consoles.length ∧
      ((scopedRun (builtSys (mkReporter emptySys "app" Level.info.rank none true false false none)) 0
          (fun s => ((none : Option String), logLevel s 0 Level.info "m" "t"))).1 =
        ((fun s => ((none : Option String), logLevel s 0 Level.info "m" "t")) (builtSys (mkReporter emptySys "app" Level.info.rank none true false false none))).1 ∧
       (scopedRun (builtSys (mkReporter emptySys "app" Level.info.rank none true false false none)) 0
          (fun s => ((none : Option String), logLevel s 0 Level.info "m" "t"))).2.consoles[(0 : Nat)]? =
        some
          ((((fun s => ((none : Option String), logLevel s 0 Level.info "m" "t")) (builtSys (mkReporter emptySys "app" Level.info.rank none true false false none))).2.consoles[(0 : Nat)]?).getD [] ++
           [ConsoleEvent.panel "Report Summary" (reportRows (mkStats 0 1 0 0 0))]))) ∧
    ((scopedRun (builtSys (mkReporter emptySys "app" Level.info.rank none true false false none)) 0
        (fun s => (some "boom", logLevel s 0 Level.error "x" "t"))).1 =
      ((fun s => ((some "boom" : Option String), logLevel s 0 Level.error "x" "t")) (builtSys (mkReporter emptySys "app" Level.info.rank none true false false none))).1 ∧
     (scopedRun (builtSys (mkReporter emptySys "app" Level.info.rank none true false false none)) 0
        (fun s => (some "boom", logLevel s 0 Level.error "x" "t"))).2.consoles[(0 : Nat)]? =
      some
        ((((fun s => ((some "boom" : Option String), logLevel s 0 Level.error "x" "t")) (builtSys (mkReporter emptySys "app" Level.info.rank none true false false none))).2.consoles[(0 : Nat)]?).getD [] ++
         [ConsoleEvent.panel "Report Summary" (reportRows (mkStats 0 0 0 1 0))])) :=
  ⟨⟨by decide, by decide,
    scoped_exit_reports_once
      (builtSys (mkReporter emptySys "app" Level.info.rank none true false false none)) 0
      (fun s => ((none : Option String), logLevel s 0 Level.info "m" "t"))
      ⟨"app", 0, mkStats 0 1 0 0 0⟩ (by decide) (by decide)⟩,
   scoped_exit_reports_once
     (builtSys (mkReporter emptySys "app" Level.info.rank none true false false none)) 0
     (fun s => (some "boom", logLevel s 0 Level.error "x" "t"))
     ⟨"app", 0, mkStats 0 0 0 1 0⟩ (by decide) (by decide)⟩

/-- C10: when the scoped body raises, `__exit__` still renders the summary
from the counts accumulated up to the failure point and, returning `None`,
lets the same exception propagate to the caller. -/
theorem scope_failure_propagates (sys : PySys) (i : Nat)
    (body : PySys → Option String × PySys) (e : String) (s1 : PySys)
    (rep : RepState)
    (hb : body sys = (some e, s1))
    (hrep : s1.reporters[i]? = some rep)
    (hc : rep.consoleIdx < s1.consoles.length) :
    (scopedRun sys i body).1 = some e ∧
    (scopedRun sys i body).2.consoles[rep.consoleIdx]? =
      some (((s1.consoles[rep.consoleIdx]?).getD []) ++
            [ConsoleEvent.panel "Report Summary" (reportRows rep.stats)]) := by
  unfold scopedRun
  rw [hb]
  constructor
  · rfl
  · show (reporterExit s1 i).consoles[rep.consoleIdx]? = _
    unfold reporterExit report
    rw [hrep]
    dsimp only
    rw [List.getElem?_set_self hc]

/-- Witness for C10: the failing body raises "boom" after one admitted ERROR
record; the exception survives the scope and the panel reflects the single
counted error. -/
theorem scope_failure_propagates_witness :
    ((fun s => ((some "boom" : Option String), logLevel s 0 Level.error "x" "t"))
        (builtSys (mkReporter emptySys "app" Level.info.rank none true false false none)) =
      (some "boom",
       logLevel (builtSys (mkReporter emptySys "app" Level.info.rank none true false false none))
         0 Level.error "x" "t")) ∧
    ((logLevel (builtSys (mkReporter emptySys "app" Level.info.rank none true false false none))
        0 Level.error "x" "t").reporters[(0 : Nat)]? = some ⟨"app", 0, mkStats 0 0 0 1 0⟩) ∧
    ((0 : Nat) <
      (logLevel (builtSys (mkReporter emptySys "app" Level.info.rank none true false false none))
        0 Level.error "x" "t").consoles.length) ∧
    ((scopedRun (builtSys (mkReporter emptySys "app" Level.info.rank none true false false none)) 0
        (fun s => (some "boom", logLevel s 0 Level.error "x" "t"))).1 = some "boom" ∧
     (scopedRun (builtSys (mkReporter emptySys "app" Level.info.rank none true false false none)) 0
        (fun s => (some "boom", logLevel s 0 Level.error "x" "t"))).2.consoles[(0 : Nat)]? =
      some
        ((((logLevel (builtSys (mkReporter emptySys "app" Level.info.rank none true false false none))
             0 Level.error "x" "t").consoles[(0 : Nat)]?).getD []) ++
         [ConsoleEvent.panel "Report Summary" (reportRows (mkStats 0 0 0 1 0))])) :=
  ⟨rfl, by decide, by decide,
   scope_failure_propagates
     (builtSys (mkReporter emptySys "app" Level.info.rank none true false false none)) 0
     (fun s => (some "boom", logLevel s 0 Level.error "x" "t")) "boom"
     (logLevel (builtSys (mkReporter emptySys "app" Level.info.rank none true false false none))
       0 Level.error "x" "t")
     ⟨"app", 0, mkStats 0 0 0 1 0⟩ rfl (by decide) (by decide)⟩

/-- C5: `get_stats` hands out an independent copy: after any sequence of dict
assignments through the returned reference, the reporter's internal dict is
unchanged and a subsequent snapshot still dereferences to the original
counts. -/
theorem get_stats_independent_copy (h : DictHeap) (statsRef : Nat)
    (hr : statsRef < h.cells.length) (ms : List (String × Nat)) :
    heapGet (get_stats_ref h statsRef).1 (get_stats_ref h statsRef).2 =
      heapGet h statsRef ∧
    heapGet (mutateRef (get_stats_ref h statsRef).1 (get_stats_ref h statsRef).2 ms)
      statsRef = heapGet h statsRef ∧
    heapGet
      (get_stats_ref
        (mutateRef (get_stats_ref h statsRef).1 (get_stats_ref h statsRef).2 ms)
        statsRef).1
      (get_stats_ref
        (mutateRef (get_stats_ref h statsRef).1 (get_stats_ref h statsRef).2 ms)
        statsRef).2 = heapGet h statsRef := by
  have hne : statsRef ≠ h.cells.length := by omega
  have hmut : heapGet
      (mutateRef (get_stats_ref h statsRef).1 (get_stats_ref h statsRef).2 ms)
      statsRef = heapGet h statsRef := by
    rw [show (get_stats_ref h statsRef).2 = h.cells.length from rfl]
    rw [mutateRef_other h.cells.length statsRef hne ms]
    unfold get_stats_ref heapGet
    dsimp only
    rw [List.getElem?_append, if_pos hr]
  refine ⟨get_stats_ref_val h statsRef, hmut, ?_⟩
  rw [get_stats_ref_val, hmut]

/-- Witness for C5: a one-cell heap holding the initial stats dict; the
caller overwrites "info" with 999 through the snapshot reference, and the
internal dict still reads unchanged. -/
theorem get_stats_independent_copy_witness :
    (0 : Nat) < (DictHeap.mk [initStats]).cells.length ∧
    (heapGet (get_stats_ref (DictHeap.mk [initStats]) 0).1
        (get_stats_ref (DictHeap.mk [initStats]) 0).2 =
      heapGet (DictHeap.mk [initStats]) 0 ∧
     heapGet
        (mutateRef (get_stats_ref (DictHeap.mk [initStats]) 0).1
          (get_stats_ref (DictHeap.mk [initStats]) 0).2 [("info", 999)]) 0 =
      heapGet (DictHeap.mk [initStats]) 0 ∧
     heapGet
        (get_stats_ref
          (mutateRef (get_stats_ref (DictHeap.mk [initStats]) 0).1
            (get_stats_ref (DictHeap.mk [initStats]) 0).2 [("info", 999)]) 0).1
        (get_stats_ref
          (mutateRef (get_stats_ref (DictHeap.mk [initStats]) 0).1
            (get_stats_ref (DictHeap.mk [initStats]) 0).2 [("info", 999)]) 0).2 =
      heapGet (DictHeap.mk [initStats]) 0) :=
  ⟨by decide, get_stats_independent_copy (DictHeap.mk [initStats]) 0 (by decide)
    [("info", 999)]⟩

/-- C6: `report()` is read-only with respect to statistics: iterating it any
number of times with no intervening submissions leaves the reporters (hence
the per-level counts) unchanged, and every call returns the same mapping,
namely the current `get_stats()`. -/
theorem report_read_only (sys : PySys) (i : Nat) (t : String) (n : Nat) :
    (reportIter sys i t n).reporters = sys.reporters ∧
    get_stats (reportIter sys i t n) i = get_stats sys i ∧
    (report (reportIter sys i t n) i t).2 = get_stats sys i := by
  have hrep := reportIter_reporters sys i t n
  have hget := get_stats_eq_of_reporters _ _ i hrep
  exact ⟨hrep, hget, by rw [report_snd]; exact hget⟩

/-- C8: constructing with persistence enabled but no destination path fails
synchronously with the `ValueError` message, and no Reporter instance is
registered: the error world carries the reporter list unchanged. -/
theorem missing_file_path_raises (sys : PySys) (name : String) (level : Nat)
    (console : Option Nat) (st sp : Bool) :
    ∃ s', mkReporter sys name level console st sp true none =
        Except.error (missingPathMsg, s') ∧
      s'.reporters = sys.reporters :=
  ⟨_, rfl, rfl⟩

/-- Exact value of a construction with file handler and a fresh console (it
always succeeds when a path is supplied). -/
lemma mkReporter_ok_file (sys : PySys) (name : String) (level : Nat)
    (st sp : Bool) (p : String) :
    mkReporter sys name level none st sp true (some p) =
      Except.ok
        ({ reporters := sys.reporters ++ [⟨name, sys.consoles.length, initStats⟩],
           loggers := assocSet sys.loggers name
             { level := level,
               handlers := [Handler.rich sys.consoles.length level st sp,
                 Handler.file p level],
               filters := (lookupD sys.loggers name freshLogger).filters ++
                 [sys.reporters.length] },
           consoles := sys.consoles ++ [[]],
           files := (if assocMem sys.files p then sys.files
             else sys.files ++ [(p, [])]) }, sys.reporters.length) := rfl

/-- C9: with persistence enabled under a valid destination, the file exists
after construction, and every admitted record appends exactly one line of the
form "timestamp - reporterName - LEVEL - message" to it, where LEVEL is the
upper-cased level name. -/
theorem persisted_line_format (sys : PySys) (name : String) (m : Level)
    (st sp : Bool) (p : String) (s0 : PySys) (i : Nat)
    (hmk : mkReporter sys name m.rank none st sp true (some p) = Except.ok (s0, i))
    (L : Level) (hadm : m.rank ≤ L.rank) (msg ts : String) :
    assocMem s0.files p = true ∧
    lookupD (logLevel s0 i L msg ts).files p [] =
      lookupD s0.files p [] ++
        [ts ++ " - " ++ name ++ " - " ++ L.levelname ++ " - " ++ msg] ∧
    L.levelname = strUpper L.statsKey := by
  rw [mkReporter_ok_file] at hmk
  simp only [Except.ok.injEq, Prod.mk.injEq] at hmk
  obtain ⟨hs, hi⟩ := hmk
  subst hs
  subst hi
  refine ⟨?_, ?_, by cases L <;> rfl⟩
  · dsimp only
    split
    · assumption
    · simp [assocMem, List.any_append]
  · unfold logLevel logRecord
    rw [List.getElem?_concat_length]
    dsimp only
    rw [lookupD_assocSet_self]
    dsimp only
    rw [if_pos hadm]
    dsimp only [List.foldl]
    unfold handleRecord
    dsimp only
    rw [if_pos hadm, if_pos hadm]
    dsimp only
    rw [lookupD_assocSet_self]

/-- Witness for C9: a reporter persisting to "/tmp/app.log" at INFO minimum;
one admitted ERROR record appends the formatted line. -/
theorem persisted_line_format_witness :
    mkReporter emptySys "app" Level.info.rank none true false true (some "/tmp/app.log") =
      Except.ok
        (builtSys (mkReporter emptySys "app" Level.info.rank none true false true (some "/tmp/app.log")),
         0) ∧
    Level.info.rank ≤ Level.error.rank ∧
    (assocMem (builtSys (mkReporter emptySys "app" Level.info.rank none true false true (some "/tmp/app.log"))).files "/tmp/app.log" = true ∧
     lookupD
        (logLevel (builtSys (mkReporter emptySys "app" Level.info.rank none true false true (some "/tmp/app.log")))
          0 Level.error "boom" "2024-01-01 00:00:00,000").files "/tmp/app.log" [] =
      lookupD (builtSys (mkReporter emptySys "app" Level.info.rank none true false true (some "/tmp/app.log"))).files "/tmp/app.log" [] ++
        ["2024-01-01 00:00:00,000" ++ " - " ++ "app" ++ " - " ++ Level.error.levelname ++ " - " ++ "boom"] ∧
     Level.error.levelname = strUpper Level.error.statsKey) := by
  refine ⟨rfl, by decide, ?_⟩
  exact persisted_line_format emptySys "app" Level.info true false "/tmp/app.log"
    (builtSys (mkReporter emptySys "app" Level.info.rank none true false true (some "/tmp/app.log")))
    0 rfl Level.error (by decide) "boom" "2024-01-01 00:00:00,000"

/-- A leveled call on reporter `i` leaves the stats of any reporter whose
index is not on the dispatching logger's filter list unchanged. -/
lemma logLevel_nonmember_stats (sys : PySys) (i j : Nat) (rep : RepState)
    (hrep : sys.reporters[i]? = some rep)
    (hnm : (lookupD sys.loggers rep.name freshLogger).filters.count j = 0)
    (L : Level) (msg ts : String) :
    get_stats (logLevel sys i L msg ts) j = get_stats sys j := by
  by_cases hadm : (lookupD sys.loggers rep.name freshLogger).level ≤ L.rank
  · have hget := logRecord_getElem sys i rep L.levelname L.rank msg ts j hrep hadm
    rw [hnm] at hget
    unfold get_stats
    rw [show logLevel sys i L msg ts = logRecord sys i L.levelname L.rank msg ts from rfl,
      hget]
    cases sys.reporters[j]? <;> rfl
  · have hid : logLevel sys i L msg ts = sys :=
      logRecord_below sys i rep L.levelname L.rank msg ts hrep (by omega)
    rw [hid]

/-- C2 counterexample: two Reporters constructed with the SAME name share the
globally registered logger, and the first one's counting filter stays
attached when the second is constructed (`__init__` clears handlers, not
filters); an admitted INFO call on the second therefore changes the first
one's `get_stats()` from all-zero to info=1, so same-named Reporters are not
independent. -/
theorem same_name_call_changes_other_stats :
    mkReporter emptySys "app" Level.info.rank none true false false none =
      Except.ok
        (builtSys (mkReporter emptySys "app" Level.info.rank none true false false none), 0) ∧
    mkReporter (builtSys (mkReporter emptySys "app" Level.info.rank none true false false none))
        "app" Level.info.rank none true false false none =
      Except.ok
        (builtSys (mkReporter
          (builtSys (mkReporter emptySys "app" Level.info.rank none true false false none))
          "app" Level.info.rank none true false false none), 1) ∧
    get_stats
      (builtSys (mkReporter
        (builtSys (mkReporter emptySys "app" Level.info.rank none true false false none))
        "app" Level.info.rank none true false false none)) 0 = mkStats 0 0 0 0 0 ∧
    get_stats
      (logLevel
        (builtSys (mkReporter
          (builtSys (mkReporter emptySys "app" Level.info.rank none true false false none))
          "app" Level.info.rank none true false false none))
        1 Level.info "hi" "ts") 0 = mkStats 0 1 0 0 0 :=
  ⟨rfl, rfl, by decide, by decide⟩

/-- C2 amended: Reporters constructed with DISTINCT names are fully
independent in both directions — a leveled call on either one never changes
the other's `get_stats()` (same-named Reporters, by the counterexample, share
the logger and its accumulated counting filters). -/
theorem distinct_name_reporters_independent (sys : PySys) (hwf : WFsys sys)
    (n1 n2 : String) (hn : n1 ≠ n2) (m1 m2 : Nat) (c1 c2 : Option Nat)
    (st1 sp1 st2 sp2 : Bool) (s1 : PySys) (i1 : Nat) (s2 : PySys) (i2 : Nat)
    (h1 : mkReporter sys n1 m1 c1 st1 sp1 false none = Except.ok (s1, i1))
    (h2 : mkReporter s1 n2 m2 c2 st2 sp2 false none = Except.ok (s2, i2))
    (L : Level) (msg ts : String) :
    get_stats (logLevel s2 i2 L msg ts) i1 = get_stats s2 i1 ∧
    get_stats (logLevel s2 i1 L msg ts) i2 = get_stats s2 i2 := by
  rw [mkReporter_ok_nofile] at h1
  simp only [Except.ok.injEq, Prod.mk.injEq] at h1
  obtain ⟨hs1, hi1⟩ := h1
  subst hs1
  subst hi1
  rw [mkReporter_ok_nofile] at h2
  simp only [Except.ok.injEq, Prod.mk.injEq] at h2
  obtain ⟨hs2, hi2⟩ := h2
  subst hs2
  subst hi2
  constructor
  · apply logLevel_nonmember_stats _ _ _
      (⟨n2, (match c2 with
        | some c => c
        | none => (match c1 with
            | some _ => sys.consoles
            | none => sys.consoles ++ [[]]).length), initStats⟩ : RepState)
    · exact List.getElem?_concat_length _ _
    · dsimp only
      rw [lookupD_assocSet_self]
      dsimp only
      rw [List.count_append]
      rw [lookupD_assocSet_ne sys.loggers n1 n2 _ freshLogger (Ne.symm hn)]
      have hz1 : (lookupD sys.loggers n2 freshLogger).filters.count
          sys.reporters.length = 0 := by
        rw [List.count_eq_zero]
        intro hmem
        exact absurd (WFsys_lookup sys hwf n2 _ hmem) (lt_irrefl _)
      rw [hz1, Nat.zero_add, List.count_eq_zero]
      intro hmem
      simp only [List.mem_singleton] at hmem
      simp [List.length_append] at hmem
  · apply logLevel_nonmember_stats _ _ _
      (⟨n1, (match c1 with
        | some c => c
        | none => sys.consoles.length), initStats⟩ : RepState)
    · rw [List.getElem?_append, if_pos (by simp [List.length_append])]
      exact List.getElem?_concat_length _ _
    · dsimp only
      rw [lookupD_assocSet_ne _ n2 n1 _ freshLogger hn]
      rw [lookupD_assocSet_self]
      dsimp only
      rw [List.count_append]
      have hz1 : (lookupD sys.loggers n1 freshLogger).filters.count
          ((sys.reporters ++
            [(⟨n1, (match c1 with
              | some c => c
              | none => sys.consoles.length), initStats⟩ : RepState)]).length) = 0 := by
        rw [List.count_eq_zero]
        intro hmem
        have hlt := WFsys_lookup sys hwf n1 _ hmem
        rw [List.length_append] at hlt
        omega
      rw [hz1, Nat.zero_add, List.count_eq_zero]
      intro hmem
      simp only [List.mem_singleton] at hmem
      simp [List.length_append] at hmem

/-- Witness for C2 (amended): two Reporters named "app1" and "app2" built on
the empty world; an INFO call on the second leaves the first one's
`get_stats()` unchanged, and an INFO call on the first leaves the second
one's `get_stats()` unchanged. -/
theorem distinct_name_reporters_independent_witness :
    WFsys emptySys ∧
    "app1" ≠ "app2" ∧
    mkReporter emptySys "app1" Level.info.rank none true false false none =
      Except.ok
        (builtSys (mkReporter emptySys "app1" Level.info.rank none true false false none), 0) ∧
    mkReporter (builtSys (mkReporter emptySys "app1" Level.info.rank none true false false none))
        "app2" Level.info.rank none true false false none =
      Except.ok
        (builtSys (mkReporter
          (builtSys (mkReporter emptySys "app1" Level.info.rank none true false false none))
          "app2" Level.info.rank none true false false none), 1) ∧
    (get_stats
      (logLevel
        (builtSys (mkReporter
          (builtSys (mkReporter emptySys "app1" Level.info.rank none true false false none))
          "app2" Level.info.rank none true false false none))
        1 Level.info "hi" "ts") 0 =
      get_stats
        (builtSys (mkReporter
          (builtSys (mkReporter emptySys "app1" Level.info.rank none true false false none))
          "app2" Level.info.rank none true false false none)) 0 ∧
     get_stats
      (logLevel
        (builtSys (mkReporter
          (builtSys (mkReporter emptySys "app1" Level.info.rank none true false false none))
          "app2" Level.info.rank none true false false none))
        0 Level.info "hi" "ts") 1 =
      get_stats
        (builtSys (mkReporter
          (builtSys (mkReporter emptySys "app1" Level.info.rank none true false false none))
          "app2" Level.info.rank none true false false none)) 1) := by
  have hwf : WFsys emptySys := by
    intro p hp j hj
    simp [emptySys] at hp
  refine ⟨hwf, by decide, rfl, rfl, ?_⟩
  exact distinct_name_reporters_independent emptySys hwf "app1" "app2" (by decide)
    Level.info.rank Level.info.rank none none true false true false
    (builtSys (mkReporter emptySys "app1" Level.info.rank none true false false none)) 0
    (builtSys (mkReporter
      (builtSys (mkReporter emptySys "app1" Level.info.rank none true false false none))
      "app2" Level.info.rank none true false false none)) 1
    rfl rfl Level.info "hi" "ts"

/-- C7 counterexample: a record submitted at level name "NOTICE" (rank 25),
outside the five-member enumeration, is NOT rejected and no error is raised:
the call completes normally, the record is delivered to the console sink, and
no statistics counter changes — it is silently delivered without being
counted, contradicting the claimed InvalidLevelError.  (`_count_log_event`
merely skips unknown keys and returns True; the source defines no such
error.) -/
theorem invalid_level_silently_delivered :
    mkReporter emptySys "app" Level.debug.rank none true false false none =
      Except.ok
        (builtSys (mkReporter emptySys "app" Level.debug.rank none true false false none), 0) ∧
    get_stats
      (logRecord
        (builtSys (mkReporter emptySys "app" Level.debug.rank none true false false none))
        0 "NOTICE" 25 "note" "ts") 0 =
      get_stats (builtSys (mkReporter emptySys "app" Level.debug.rank none true false false none)) 0 ∧
    (logRecord
      (builtSys (mkReporter emptySys "app" Level.debug.rank none true false false none))
      0 "NOTICE" 25 "note" "ts").consoles = [[ConsoleEvent.log "NOTICE" "note"]] ∧
    count_log_event initStats "NOTICE" = (initStats, true) :=
  ⟨rfl, by decide, by decide, by decide⟩

/-- C7 amended: a submission whose lower-cased level name is not among the
statistics keys is silently delivered without being counted: every reporter's
stats dict is left unchanged (the counting filter skips the unknown key and
returns True), and when the record's rank passes the logger and handler
levels the console sink still receives it; no error is raised anywhere on the
path. -/
theorem unknown_level_uncounted_delivered (sys : PySys) (i : Nat)
    (rep : RepState) (ln : String) (rk : Nat) (msg ts : String)
    (hrep : sys.reporters[i]? = some rep)
    (hkeys : ∀ (j : Nat) (r : RepState), sys.reporters[j]? = some r →
      dictMem r.stats (strLower ln) = false)
    (c hl : Nat) (st sp : Bool)
    (hh : (lookupD sys.loggers rep.name freshLogger).handlers =
      [Handler.rich c hl st sp])
    (hc : c < sys.consoles.length) :
    (logRecord sys i ln rk msg ts).reporters = sys.reporters ∧
    ((lookupD sys.loggers rep.name freshLogger).level ≤ rk → hl ≤ rk →
      (logRecord sys i ln rk msg ts).consoles[c]? =
        some (((sys.consoles[c]?).getD []) ++ [ConsoleEvent.log ln msg])) := by
  have hid : runFilters sys.reporters
      (lookupD sys.loggers rep.name freshLogger).filters ln = sys.reporters := by
    apply runFilters_id
    intro j r hjr
    simp only [count_log_event]
    rw [hkeys j r hjr]
    rfl
  constructor
  · unfold logRecord
    rw [hrep]
    dsimp only
    split
    · rw [foldl_handleRecord_reporters]
      dsimp only
      exact hid
    · rfl
  · intro hlev hhl
    unfold logRecord
    rw [hrep]
    dsimp only
    rw [if_pos hlev, hh]
    dsimp only [List.foldl]
    unfold handleRecord
    dsimp only
    rw [if_pos hhl]
    dsimp only
    rw [List.getElem?_set_self hc]

/-- Witness for C7 (amended): the "NOTICE" record at rank 25 on a
DEBUG-minimum reporter satisfies all hypotheses concretely; it leaves the
reporters unchanged and lands on the console. -/
theorem unknown_level_uncounted_delivered_witness :
    ((builtSys (mkReporter emptySys "app" Level.debug.rank none true false false none)).reporters[(0 : Nat)]? =
      some ⟨"app", 0, initStats⟩) ∧
    (∀ (j : Nat) (r : RepState),
      (builtSys (mkReporter emptySys "app" Level.debug.rank none true false false none)).reporters[j]? =
          some r →
        dictMem r.stats (strLower "NOTICE") = false) ∧
    ((lookupD (builtSys (mkReporter emptySys "app" Level.debug.rank none true false false none)).loggers
        "app" freshLogger).handlers = [Handler.rich 0 Level.debug.rank true false]) ∧
    ((0 : Nat) <
      (builtSys (mkReporter emptySys "app" Level.debug.rank none true false false none)).consoles.length) ∧
    ((logRecord (builtSys (mkReporter emptySys "app" Level.debug.rank none true false false none))
        0 "NOTICE" 25 "note" "ts").reporters =
      (builtSys (mkReporter emptySys "app" Level.debug.rank none true false false none)).reporters ∧
     ((lookupD (builtSys (mkReporter emptySys "app" Level.debug.rank none true false false none)).loggers
         "app" freshLogger).level ≤ 25 → Level.debug.rank ≤ 25 →
       (logRecord (builtSys (mkReporter emptySys "app" Level.debug.rank none true false false none))
          0 "NOTICE" 25 "note" "ts").consoles[(0 : Nat)]? =
        some ((((builtSys (mkReporter emptySys "app" Level.debug.rank none true false false none)).consoles[(0 : Nat)]?).getD []) ++
          [ConsoleEvent.log "NOTICE" "note"]))) := by
  have hkeys : ∀ (j : Nat) (r : RepState),
      (builtSys (mkReporter emptySys "app" Level.debug.rank none true false false none)).reporters[j]? =
          some r →
        dictMem r.stats (strLower "NOTICE") = false := by
    intro j r hjr
    cases j with
    | zero =>
      have hx : some (⟨"app", 0, initStats⟩ : RepState) = some r := hjr
      injection hx with h
      rw [← h]
      decide
    | succ j =>
      exact Option.noConfusion (show (none : Option RepState) = some r from hjr)
  refine ⟨rfl, hkeys, rfl, by decide, ?_⟩
  exact unknown_level_uncounted_delivered
    (builtSys (mkReporter emptySys "app" Level.debug.rank none true false false none))
    0 ⟨"app", 0, initStats⟩ "NOTICE" 25 "note" "ts" rfl hkeys
    0 Level.debug.rank true false rfl (by decide)

end RichReporter
